import Mathlib

/-!
Verification of the `Remote` coordinator of payshares-lib (`src/remote.js`)
against its natural-language specification.

The JavaScript code is shallowly embedded: JS values that matter for the
claims are modelled by the `JsNum`/`JsValue` inductives (numbers as exact
rationals plus the Infinity/NaN points), stateful handlers become explicit
state-passing functions, and thrown exceptions become `Except` errors.
-/

namespace PaysharesRemote

/-- Model of a JavaScript number: a finite value, the two infinities, or NaN. -/
inductive JsNum where
  | val (q : ℚ)
  | inf
  | negInf
  | nan
deriving DecidableEq

/-- Model of a JavaScript value, covering the shapes the `Remote`
constructor and message handlers discriminate on via `typeof` and
truthiness. -/
inductive JsValue where
  | undef
  | null
  | boolean (b : Bool)
  | num (n : JsNum)
  | str (s : String)
  | obj
  | fn
deriving DecidableEq

/-- The JavaScript `typeof` operator on the modelled values
(`typeof null` is `"object"`). -/
def typeofV : JsValue → String
  | .undef => "undefined"
  | .null => "object"
  | .boolean _ => "boolean"
  | .num _ => "number"
  | .str _ => "string"
  | .obj => "object"
  | .fn => "function"

/-- JavaScript truthiness (`Boolean(v)` / `if (v)`): `undefined`, `null`,
`false`, `0`, `NaN` and the empty string are falsy, everything else truthy. -/
def truthy : JsValue → Bool
  | .undef => false
  | .null => false
  | .boolean b => b
  | .num (.val q) => decide (q ≠ 0)
  | .num .inf => true
  | .num .negInf => true
  | .num .nan => false
  | .str s => decide (s ≠ "")
  | .obj => true
  | .fn => true

/-- A JavaScript error value: its constructor name (`Error`, `TypeError`)
and its message. -/
structure JsErr where
  name : String
  message : String
deriving DecidableEq

/-! ### Constructor option handling (`Remote(opts)`, src/remote.js lines 71-243)

The constructor first computes each configuration field with a
`typeof`-guarded default (lines 77-110), then runs the sequence of
`TypeError` checks (lines 141-175). -/

/-- The configuration options recognised by the `Remote` constructor, each
an arbitrary JavaScript value (absent options are `undefined`). -/
structure RemoteOpts where
  trusted : JsValue := JsValue.undef
  local_sequence : JsValue := JsValue.undef
  local_fee : JsValue := JsValue.undef
  local_signing : JsValue := JsValue.undef
  canonical_signing : JsValue := JsValue.undef
  fee_cushion : JsValue := JsValue.undef
  max_fee : JsValue := JsValue.undef
  connection_offset : JsValue := JsValue.undef
  submission_timeout : JsValue := JsValue.undef
  ping : JsValue := JsValue.undef
  storage : JsValue := JsValue.undef
deriving DecidableEq

/-- The configuration fields stored on a constructed `Remote`. -/
structure RemoteCfg where
  trusted : JsValue
  local_sequence : JsValue
  local_fee : JsValue
  local_signing : JsValue
  canonical_signing : JsValue
  fee_cushion : JsValue
  max_fee : JsValue
  connection_offset : JsValue
  submission_timeout : JsValue
deriving DecidableEq

/-- Extract the numeric payload of a value already known to be a number
(only applied under a `typeof v === 'number'` guard in the embedding). -/
def jsNumOf : JsValue → JsNum
  | .num n => n
  | _ => JsNum.nan

/-- Multiplication of a JavaScript number by the positive constant 1000
(used for `1000 * connection_offset` and `1000 * submission_timeout`). -/
def mul1000 : JsNum → JsNum
  | .val q => JsNum.val (1000 * q)
  | .inf => JsNum.inf
  | .negInf => JsNum.negInf
  | .nan => JsNum.nan

/-- The `Remote` constructor's option defaulting (src/remote.js lines
77-110): each field is assigned to `this` with a `typeof`-guarded
default, and afterwards `local_signing` being truthy forces
`local_sequence` and `local_fee` to `true` (lines 107-110). -/
def remoteDefaults (opts : RemoteOpts) : RemoteCfg :=
  let local_signing :=
    if typeofV opts.local_signing = "boolean" then opts.local_signing else JsValue.boolean true
  { trusted := JsValue.boolean (truthy opts.trusted)
    local_sequence :=
      if truthy local_signing then JsValue.boolean true
      else JsValue.boolean (truthy opts.local_sequence)
    local_fee :=
      if truthy local_signing then JsValue.boolean true
      else if typeofV opts.local_fee = "boolean" then opts.local_fee else JsValue.boolean true
    local_signing := local_signing
    canonical_signing :=
      if typeofV opts.canonical_signing = "boolean" then opts.canonical_signing
      else JsValue.boolean true
    fee_cushion :=
      if typeofV opts.fee_cushion = "number" then opts.fee_cushion
      else JsValue.num (JsNum.val (6 / 5))
    max_fee :=
      if typeofV opts.max_fee = "number" then opts.max_fee else JsValue.num JsNum.inf
    connection_offset :=
      JsValue.num (mul1000
        (if typeofV opts.connection_offset = "number" then jsNumOf opts.connection_offset
         else JsNum.val 0))
    submission_timeout :=
      JsValue.num (mul1000
        (if typeofV opts.submission_timeout = "number" then jsNumOf opts.submission_timeout
         else JsNum.val 10)) }

/-- The `Remote` constructor (lines 71-243) restricted to option
handling: the defaulting of lines 77-110 followed by the configuration
type checks of lines 141-175, in source order; the checks for the
numeric and boolean options read the already-defaulted `this` fields,
while the `ping` and `storage` checks read the raw option values.  A
thrown `TypeError` is an `Except.error`. -/
def remoteInit (opts : RemoteOpts) : Except JsErr RemoteCfg :=
  let cfg := remoteDefaults opts
  if typeofV cfg.connection_offset ≠ "number" then
    Except.error ⟨"TypeError", "Remote \"connection_offset\" configuration is not a Number"⟩
  else if typeofV cfg.submission_timeout ≠ "number" then
    Except.error ⟨"TypeError", "Remote \"submission_timeout\" configuration is not a Number"⟩
  else if typeofV cfg.max_fee ≠ "number" then
    Except.error ⟨"TypeError", "Remote \"max_fee\" configuration is not a Number"⟩
  else if typeofV cfg.fee_cushion ≠ "number" then
    Except.error ⟨"TypeError", "Remote \"fee_cushion\" configuration is not a Number"⟩
  else if typeofV cfg.local_signing ≠ "boolean" then
    Except.error ⟨"TypeError", "Remote \"local_signing\" configuration is not a Boolean"⟩
  else if typeofV cfg.local_fee ≠ "boolean" then
    Except.error ⟨"TypeError", "Remote \"local_fee\" configuration is not a Boolean"⟩
  else if typeofV cfg.local_sequence ≠ "boolean" then
    Except.error ⟨"TypeError", "Remote \"local_sequence\" configuration is not a Boolean"⟩
  else if ¬(typeofV opts.ping = "undefined" ∨ typeofV opts.ping = "number") then
    Except.error ⟨"TypeError", "Remote \"ping\" configuration is not a Number"⟩
  else if ¬(typeofV opts.storage = "undefined" ∨ typeofV opts.storage = "object") then
    Except.error ⟨"TypeError", "Remote \"storage\" configuration is not an Object"⟩
  else
    Except.ok cfg

/-! ### Ledger tracking (`_handleLedgerClosed`, lines 573-592, and the
subscribe acknowledgment handler `serverSubscribed`, lines 1492-1504) -/

/-- A well-formed `ledgerClosed` message: exactly the fields (with the
types) demanded by `Remote.isValidLedgerData` (lines 316-327); a message
failing that schema is dropped by the handler before reaching this
structure. -/
structure LedgerClosedMsg where
  fee_base : Int
  fee_ref : Int
  ledger_hash : String
  ledger_index : Int
  ledger_time : Int
  reserve_base : Int
  reserve_inc : Int
  txn_count : Int
deriving DecidableEq

/-- The Remote's ledger tracker fields `_ledger_current_index`,
`_ledger_hash`, `_ledger_time`; all three start as `undefined` (`none`,
constructor lines 89-91). -/
structure LedgerTracker where
  ledger_current_index : Option Int
  ledger_hash : Option String
  ledger_time : Option Int
deriving DecidableEq

/-- Tracker state of a freshly constructed `Remote`. -/
def initialLedgerTracker : LedgerTracker := ⟨none, none, none⟩

/-- The JavaScript comparison `x >= current` where `current` may still be
`undefined`: comparing a number against `undefined` coerces to `NaN` and
yields `false`. -/
def jsGeCurrent (x : Int) (current : Option Int) : Bool :=
  match current with
  | some i => decide (x ≥ i)
  | none => false

/-- `Remote.prototype._handleLedgerClosed` (lines 573-592): accept the
message only if `ledger_index >= _ledger_current_index`; on acceptance
store time, hash and `ledger_index + 1` and emit `ledger_closed` (the
returned flag). -/
def handleLedgerClosed (st : LedgerTracker) (m : LedgerClosedMsg) : LedgerTracker × Bool :=
  if jsGeCurrent m.ledger_index st.ledger_current_index then
    (⟨some (m.ledger_index + 1), some m.ledger_hash, some m.ledger_time⟩, true)
  else
    (st, false)

/-- The fields of a subscribe acknowledgment relevant to the ledger
tracker (`serverSubscribed`, lines 1492-1504); the ledger fields may be
absent (`none`). -/
structure SubscribeAck where
  stand_alone : Bool
  testnet : Bool
  ledger_hash : Option String
  ledger_index : Option Int
  ledger_time : Option Int
deriving DecidableEq

/-- Truthiness of a possibly-absent string field (absent or empty is falsy). -/
def jsTruthyOptStr : Option String → Bool
  | some s => decide (s ≠ "")
  | none => false

/-- Truthiness of a possibly-absent number field (absent or zero is falsy). -/
def jsTruthyOptInt : Option Int → Bool
  | some i => decide (i ≠ 0)
  | none => false

/-- The ledger-close part of `serverSubscribed` (lines 1496-1501): if
`message.ledger_hash && message.ledger_index` is truthy, store time, hash
and `ledger_index + 1` unconditionally and emit `ledger_closed` (the
returned flag).  (The handler also records the `stand_alone`/`testnet`
flags, which are not part of the tracker.) -/
def serverSubscribed (st : LedgerTracker) (m : SubscribeAck) : LedgerTracker × Bool :=
  if jsTruthyOptStr m.ledger_hash && jsTruthyOptInt m.ledger_index then
    (⟨m.ledger_index.map (· + 1), m.ledger_hash, m.ledger_time⟩, true)
  else
    (st, false)

/-- Feed a list of `ledgerClosed` messages through `_handleLedgerClosed`,
collecting for each whether it was accepted (`ledger_closed` emitted). -/
def runLedgerClosed (st : LedgerTracker) : List LedgerClosedMsg → LedgerTracker × List Bool
  | [] => (st, [])
  | m :: rest =>
      let s1 := handleLedgerClosed st m
      let s2 := runLedgerClosed s1.1 rest
      (s2.1, s1.2 :: s2.2)

/-- A well-formed `ledgerClosed` message with the given index (the other
schema fields hold arbitrary representative values). -/
def mkLedgerMsg (i : Int) : LedgerClosedMsg :=
  ⟨10, 10, "h" ++ toString i, i, 100 + i, 20, 5, 0⟩

/-! ### Transaction de-duplication and fan-out (`_handleTransaction`,
lines 610-655, and the `_received_tx` LRU cache, line 103) -/

/-- `get` of the `lru-cache` used for `_received_tx`: a hit reports the
key present and refreshes its recency (moves it to the front of the
most-recent-first key list). -/
def lruGet (entries : List String) (k : String) : Bool × List String :=
  if k ∈ entries then (true, k :: entries.erase k) else (false, entries)

/-- `set` of the `lru-cache`: insert the key most-recently-used and evict
least-recently-used keys beyond the capacity `max`. -/
def lruSet (max : Nat) (entries : List String) (k : String) : List String :=
  (k :: entries.erase k).take max

/-- A `transaction` message: its hash, validation flag, optional ledger
metadata (the affected account and order-book keys derivable from it), and
the transaction's direct `Account`/`Destination` fields. -/
structure TxMsg where
  hash : String
  validated : Bool
  account : String
  destination : String
  meta : Option (List String × List String)
deriving DecidableEq

/-- An observable effect of `_handleTransaction`: a `notify` call on a
registered Account or OrderBook collaborator, or an emitted event. -/
inductive TxEvent where
  | notifyAccount (a : String)
  | notifyBook (b : String)
  | transaction
  | transaction_all
deriving DecidableEq

/-- The `Remote` state touched by `_handleTransaction`: the bounded LRU
of seen hashes (capacity `_received_tx` is created with `max: 100`) and
the keys of the registered `_accounts` and `_books` collaborators. -/
structure TxState where
  received_tx_max : Nat
  received_tx : List String
  accounts : List String
  books : List String
deriving DecidableEq

/-- `Remote.prototype._handleTransaction` (lines 610-655): discard if the
hash is already in `_received_tx`; insert the hash when `validated`;
notify affected accounts/books from the metadata (or the direct
`Account`/`Destination` parties when there is none); emit `transaction`
and `transaction_all`.  Returns the new state and the effects, in order. -/
def handleTransaction (st : TxState) (m : TxMsg) : TxState × List TxEvent :=
  let hit := lruGet st.received_tx m.hash
  if hit.1 then
    ({ st with received_tx := hit.2 }, [])
  else
    let entries2 := if m.validated then lruSet st.received_tx_max hit.2 m.hash else hit.2
    let notifies :=
      match m.meta with
      | some aff =>
          (aff.1.filter (fun a => st.accounts.contains a)).map TxEvent.notifyAccount ++
          (aff.2.filter (fun b => st.books.contains b)).map TxEvent.notifyBook
      | none =>
          ([m.account, m.destination].filter (fun a => st.accounts.contains a)).map
            TxEvent.notifyAccount
    ({ st with received_tx := entries2 }, notifies ++ [TxEvent.transaction, TxEvent.transaction_all])

/-- Feed a list of `transaction` messages through `_handleTransaction`,
collecting each message's list of effects. -/
def runTransactions (st : TxState) : List TxMsg → TxState × List (List TxEvent)
  | [] => (st, [])
  | m :: rest =>
      let s1 := handleTransaction st m
      let s2 := runTransactions s1.1 rest
      (s2.1, s1.2 :: s2.2)

/-- Expected fan-out pattern for repeated deliveries of one hash, indexed
by their `validated` flags: every delivery up to and including the first
validated one fans out; everything after the first validated delivery is
discarded. -/
def expectedFanout : List Bool → List Bool
  | [] => []
  | v :: rest => true :: (if v then rest.map (fun _ => false) else expectedFanout rest)

/-! ### Connection state machine (`_setState`, lines 347-367, and the
per-server connect/disconnect handlers installed by `addServer`,
lines 431-454) -/

/-- A per-server event delivered to the `Remote`: the `connect` or
`disconnect` signal of the server with the given identifier. -/
inductive SrvEvent where
  | conn (sid : Nat)
  | disc (sid : Nat)
deriving DecidableEq

/-- The `Remote` state aggregating per-server connectivity: the set of
currently connected server ids (each server's `_connected` flag), the
`_connection_count` counter, the `state === 'online'` flag, and the size
of the registered `_servers` pool. -/
structure ConnState where
  connectedIds : List Nat
  connection_count : Int
  online : Bool
  nServers : Nat
deriving DecidableEq

/-- `Remote.prototype._setState` (lines 347-367): a no-op if the state is
unchanged, otherwise record it, emit `state`, and emit the
`connect`/`connected` or `disconnect`/`disconnected` pair. -/
def setState (st : ConnState) (targetOnline : Bool) : ConnState × List String :=
  if st.online = targetOnline then (st, [])
  else if targetOnline then
    ({ st with online := true }, ["state", "connect", "connected"])
  else
    ({ st with online := false }, ["state", "disconnect", "disconnected"])

/-- The `serverConnect`/`serverDisconnect` handlers wired by `addServer`
(lines 431-454): connect increments `_connection_count`, moves to
`online` exactly when the count reaches 1, and emits `ready` when all
registered servers are connected; disconnect decrements the count and
moves to `offline` exactly when it reaches 0. -/
def connStep (st : ConnState) (e : SrvEvent) : ConnState × List String :=
  match e with
  | .conn sid =>
      let st1 := { st with
        connectedIds := sid :: st.connectedIds,
        connection_count := st.connection_count + 1 }
      let s2 := if st1.connection_count = 1 then setState st1 true else (st1, [])
      let ready := if s2.1.connection_count = (s2.1.nServers : Int) then ["ready"] else []
      (s2.1, s2.2 ++ ready)
  | .disc sid =>
      let st1 := { st with
        connectedIds := st.connectedIds.erase sid,
        connection_count := st.connection_count - 1 }
      if st1.connection_count = 0 then setState st1 false else (st1, [])

/-- Run a list of per-server events, collecting the events emitted by the
`Remote` for each. -/
def connRun (st : ConnState) : List SrvEvent → ConnState × List (List String)
  | [] => (st, [])
  | e :: rest =>
      let s1 := connStep st e
      let s2 := connRun s1.1 rest
      (s2.1, s1.2 :: s2.2)

/-- A per-server event sequence is well formed when every `connect` comes
from a server not currently connected and every `disconnect` from a
server currently connected (each server alternates its own signals). -/
def validEvents : List Nat → List SrvEvent → Bool
  | _, [] => true
  | ids, .conn sid :: rest => !ids.contains sid && validEvents (sid :: ids) rest
  | ids, .disc sid :: rest => ids.contains sid && validEvents (ids.erase sid) rest

/-- A single event is admissible in a given state. -/
def validStep (st : ConnState) : SrvEvent → Prop
  | .conn sid => sid ∉ st.connectedIds
  | .disc sid => sid ∈ st.connectedIds

/-- The connection state machine invariant: no server is recorded
connected twice, `_connection_count` equals the number of connected
servers, and the `Remote` is `online` exactly when that count is
positive. -/
def ConnInv (st : ConnState) : Prop :=
  st.connectedIds.Nodup ∧
  st.connection_count = (st.connectedIds.length : Int) ∧
  (st.online ↔ 0 < st.connection_count)

/-- State of a freshly constructed `Remote` with `n` registered servers:
no connections, count 0, `offline`. -/
def connInitial (n : Nat) : ConnState := ⟨[], 0, false, n⟩

/-! ### The Remote's callable methods (`this[name]` lookups)

`Remote.prototype.request` (lines 745-756) dispatches string commands via
`this['request_' + name]`, and `Remote.prototype.disconnect` (line 519)
calls `this._set_state(...)`.  Both are property lookups along the
prototype chain, so we tabulate every function-valued property name
reachable from a `Remote` instance: the methods assigned to
`Remote.prototype` in src/remote.js, plus the inherited `EventEmitter`
and `Object` prototype methods. -/

/-- Every method name assigned to `Remote.prototype` in src/remote.js
(including each alias of a multiply-named method). -/
def remotePrototypeMethods : List String :=
  [ "_setState", "setServerFatal", "setSecret", "getPendingTransactions", "addServer",
    "connect", "disconnect", "_handleMessage", "_handleLedgerClosed", "_handleServerStatus",
    "_handleTransaction", "_handlePathFind", "getLedgerHash", "_setPrimaryServer",
    "setPrimaryServer", "_getServer", "getServer", "request", "ping", "requestPing",
    "requestServerInfo", "requestLedger", "requestLedgerClosed", "requestLedgerHash",
    "requestLedgerHeader", "requestLedgerCurrent", "requestLedgerEntry", "requestSubscribe",
    "requestUnsubscribe", "requestTransactionEntry", "requestTransaction", "requestTx",
    "requestAccountInfo", "requestAccountCurrencies", "requestAccountLines",
    "requestAccountOffers", "requestAccountTransactions", "requestAccountTx",
    "requestTxHistory", "requestBookOffers", "requestWalletAccounts", "requestSign",
    "requestSubmit", "_serverPrepareSubscribe", "ledgerAccept", "requestLedgerAccept",
    "requestAccountBalance", "requestAccountFlags", "requestOwnerCount", "getAccount",
    "addAccount", "account", "findAccount", "pathFind", "createPathFind", "book",
    "createOrderBook", "accountSeq", "getAccountSequence", "setAccountSeq",
    "accountSeqCache", "dirtyAccountRoot", "requestStellarBalance", "requestStellarPathFind",
    "requestPathFindCreate", "requestPathFindClose", "requestUnlList", "requestUnlAdd",
    "requestUnlDelete", "requestPeers", "requestConnect", "transaction", "createTransaction",
    "feeTx", "feeTxUnit", "reserve" ]

/-- Function-valued properties a `Remote` inherits beyond its own
prototype: the Node `EventEmitter` prototype methods and the `Object`
prototype methods. -/
def inheritedMethods : List String :=
  [ "addListener", "on", "once", "removeListener", "removeAllListeners", "setMaxListeners",
    "listeners", "emit",
    "constructor", "hasOwnProperty", "isPrototypeOf", "propertyIsEnumerable",
    "toLocaleString", "toString", "valueOf" ]

/-- All names for which `typeof this[name] === 'function'` holds on a
`Remote` instance. -/
def remoteCallableMethods : List String :=
  remotePrototypeMethods ++ inheritedMethods

/-! ### String command dispatch (`Remote.prototype.request`, lines 745-756) -/

/-- The regular-expression test `/^request_/.test(cmd)`: whether the
command already begins with the characters `request_`. -/
def startsWithRequestUnderscore (cmd : String) : Bool :=
  decide (cmd.data.take 8 = "request_".data)

/-- The method name `request()` derives from a string command: the
command itself if it already starts with `request_`, otherwise
`'request_' + cmd`. -/
def deriveRequestName (cmd : String) : String :=
  if startsWithRequestUnderscore cmd then cmd else "request_" ++ cmd

/-- The string-command branch of `Remote.prototype.request` (lines
746-756): derive the `request_`-prefixed name; invoke the method of that
name if the `Remote` has one (returning the resolved name), otherwise
throw `Command does not exist`. -/
def requestStringDispatch (cmd : String) : Except JsErr String :=
  let derived := deriveRequestName cmd
  if derived ∈ remoteCallableMethods then Except.ok derived
  else Except.error ⟨"Error", "Command does not exist: " ++ derived⟩

/-! ### disconnect (`Remote.prototype.disconnect`, lines 506-522) -/

/-- The `Remote` state touched by `disconnect()`: the registered server
ids and the connection state string. -/
structure DisconnectRemote where
  servers : List Nat
  state : String
deriving DecidableEq

/-- `Remote.prototype.disconnect` (lines 506-522): throw if no servers
are registered; otherwise instruct every server to disconnect (first
component of the result) and then call `this._set_state('offline')` — a
property lookup that only succeeds if the `Remote` has a method of that
name, and otherwise throws a `TypeError`. -/
def disconnectRun (st : DisconnectRemote) : List Nat × Except JsErr DisconnectRemote :=
  if st.servers = [] then
    ([], Except.error ⟨"Error", "No servers available, not disconnecting"⟩)
  else if "_set_state" ∈ remoteCallableMethods then
    (st.servers, Except.ok { st with state := "offline" })
  else
    (st.servers, Except.error ⟨"TypeError", "this._set_state is not a function"⟩)

/-! ### Server selection (`getServer`, lines 706-735) and the fee/reserve
queries (`feeTx`/`feeTxUnit`/`reserve`, lines 2175-2221) -/

/-- A pool entry as `getServer` sees it: the server's `_score` and `_fee`
fields and its `_connected` flag. -/
structure ServerEntry where
  id : Nat
  score : ℚ
  fee : ℚ
  connected : Bool
deriving DecidableEq

/-- Insert an entry into a list sorted ascending by `_score + _fee`. -/
def insertByScore (s : ServerEntry) : List ServerEntry → List ServerEntry
  | [] => [s]
  | t :: rest =>
      if s.score + s.fee ≤ t.score + t.fee then s :: t :: rest
      else t :: insertByScore s rest

/-- The comparator `sortByScore` (lines 712-722) orders entries by
`_score + _fee` ascending; `Array.prototype.sort` leaves the tie-break
unspecified, modelled here by a stable insertion sort. -/
def sortByScore (servers : List ServerEntry) : List ServerEntry :=
  servers.foldr insertByScore []

/-- The scan `while (!server._connected) server = this._servers[++index]`
(lines 727-734): return the first connected entry; walking past the end
of the array reads `undefined._connected` and throws a `TypeError`.  The
`Except.ok none` outcome (loop finishing with no server) is unreachable. -/
def findFirstConnected : List ServerEntry → Except JsErr (Option ServerEntry)
  | [] => Except.error ⟨"TypeError", "Cannot read property _connected of undefined"⟩
  | s :: rest => if s.connected then Except.ok (some s) else findFirstConnected rest

/-- `Remote.prototype.getServer` (lines 706-735): a connected primary is
returned unconditionally; otherwise the pool is sorted by score plus fee
and scanned for the first connected entry. -/
def getServerRun (servers : List ServerEntry) (primary : Option ServerEntry) :
    Except JsErr (Option ServerEntry) :=
  match primary with
  | some p =>
      if p.connected then Except.ok (some p)
      else findFirstConnected (sortByScore servers)
  | none => findFirstConnected (sortByScore servers)

/-- The server-selection step shared by `feeTx`, `feeTxUnit` and
`reserve` (lines 2175-2221): call `_getServer()` and throw
`No connected servers` if it returned no server, before delegating the
fee/reserve computation to the selected server. -/
def feeQuerySelect (servers : List ServerEntry) (primary : Option ServerEntry) :
    Except JsErr ServerEntry :=
  match getServerRun servers primary with
  | Except.error e => Except.error e
  | Except.ok none => Except.error ⟨"Error", "No connected servers"⟩
  | Except.ok (some s) => Except.ok s

/-! ### Account sequence cache (`getAccountSequence` lines 1756-1771,
`setAccountSeq` lines 1780-1788, `accountSeqCache` lines 1799-1848) -/

/-- Modelled from the spec: `UInt160.json_rewrite`, the external Value
Codec's canonicalization of account identifiers (src/uint160.js is not
part of this repository's sources); modelled as the identity on
already-canonical identifiers. -/
def UInt160_json_rewrite (account : String) : String := account

/-- One entry of `this.accounts`: the cached sequence number (`seq`,
which may be unset) and the single-flight in-flight refresh marker
(`caching_seq_request`, holding the id of the outstanding request). -/
structure AccountInfo where
  seq : Option Int
  caching_seq_request : Option Nat
deriving DecidableEq

/-- The empty entry `{ }` created on first access to an account. -/
def emptyAccountInfo : AccountInfo := ⟨none, none⟩

/-- The `Remote` state touched by the account-sequence cache: the
`this.accounts` map, a supply of fresh request ids, the number of
underlying `account_root` lookups issued so far, and the list of
(request id, callback id) attachments made via `request.callback`. -/
structure AccountsState where
  accounts : String → Option AccountInfo
  nextRequestId : Nat
  lookupsIssued : Nat
  attached : List (Nat × Nat)

/-- Store an entry in the `this.accounts` map. -/
def putAcct (st : AccountsState) (a : String) (info : AccountInfo) : AccountsState :=
  { st with accounts := fun x => if x = a then some info else st.accounts x }

/-- An `AccountsState` with no entries, no attachments and fresh ids. -/
def emptyAccounts : AccountsState := ⟨fun _ => none, 0, 0, []⟩

/-- `String.prototype.toUpperCase`, character by character. -/
def jsToUpperCase (s : String) : String :=
  ⟨s.data.map Char.toUpper⟩

/-- The modifier lookup `{ ADVANCE: 1, REWIND: -1 }[advance.toUpperCase()] || 0`
(line 1766). -/
def advanceChange (advance : String) : Int :=
  let u := jsToUpperCase advance
  if u = "ADVANCE" then 1 else if u = "REWIND" then -1 else 0

/-- `Remote.prototype.getAccountSequence` (lines 1756-1771): return
nothing when the account has no cache entry; otherwise return the
pre-mutation `seq` and add the modifier to the stored value (an unset
`seq` stays unset, as `undefined + change` is `NaN`). -/
def getAccountSequence (st : AccountsState) (account advance : String) :
    Option Int × AccountsState :=
  let acct := UInt160_json_rewrite account
  match st.accounts acct with
  | none => (none, st)
  | some info =>
      (info.seq,
       putAcct st acct { info with seq := info.seq.map (· + advanceChange advance) })

/-- `Remote.prototype.setAccountSeq` (lines 1780-1788): create the entry
if absent and overwrite its `seq` unconditionally. -/
def setAccountSeq (st : AccountsState) (account : String) (sequence : Int) : AccountsState :=
  let acct := UInt160_json_rewrite account
  let info := (st.accounts acct).getD emptyAccountInfo
  putAcct st acct { info with seq := some sequence }

/-- `Remote.prototype.accountSeqCache` (lines 1799-1848): create the
account entry if absent; if a refresh request is already in flight,
attach the new caller to it; otherwise issue a fresh `account_root`
lookup, record it as the in-flight marker, and attach the caller.
Returns the id of the request the caller was attached to. -/
def accountSeqCache (st : AccountsState) (account : String) (cb : Nat) :
    AccountsState × Nat :=
  let st0 := if (st.accounts account).isNone then putAcct st account emptyAccountInfo else st
  let info := (st0.accounts account).getD emptyAccountInfo
  match info.caching_seq_request with
  | some rid => ({ st0 with attached := st0.attached ++ [(rid, cb)] }, rid)
  | none =>
      let rid := st0.nextRequestId
      let st1 := putAcct st0 account { info with caching_seq_request := some rid }
      ({ st1 with
          nextRequestId := rid + 1,
          lookupsIssued := st1.lookupsIssued + 1,
          attached := st1.attached ++ [(rid, cb)] }, rid)

/-- A completion signalled to one attached caller: the resolved sequence
value on success, or the error event on failure. -/
inductive SeqOutcome where
  | success (cbId : Nat) (seq : Int)
  | failure (cbId : Nat)
deriving DecidableEq

/-- The `accountRootSuccess` handler (lines 1816-1825): clear the
in-flight marker, store the fetched `message.node.Sequence`, and emit
the success event to every caller attached to the request. -/
def resolveSeqSuccess (st : AccountsState) (account : String) (rid : Nat)
    (fetchedSeq : Int) : AccountsState × List SeqOutcome :=
  let info := (st.accounts account).getD emptyAccountInfo
  let st1 := putAcct st account { info with caching_seq_request := none, seq := some fetchedSeq }
  (st1, (st.attached.filter (fun p => p.1 == rid)).map (fun p => SeqOutcome.success p.2 fetchedSeq))

/-- The `accountRootError` handler (lines 1827-1832): clear the in-flight
marker and emit the error event to every caller attached to the request. -/
def resolveSeqError (st : AccountsState) (account : String) (rid : Nat) :
    AccountsState × List SeqOutcome :=
  let info := (st.accounts account).getD emptyAccountInfo
  let st1 := putAcct st account { info with caching_seq_request := none }
  (st1, (st.attached.filter (fun p => p.1 == rid)).map (fun p => SeqOutcome.failure p.2))

/-! ## Theorems -/

/-! ### C1: monotonicity of the tracked ledger index -/

/-- C1 counterexample: the claim asserts that every update to the tracked
ledger index — including a ledger-close notice bundled inside a subscribe
acknowledgment — is accepted only when the message's `ledger_index` is at
least the current tracked index, so the stored index never decreases.
The subscribe-acknowledgment path has no such guard: from a tracker at
index 100, an acknowledgment carrying `ledger_index` 5 rewrites the
tracked index to 6, a decrease. -/
theorem serverSubscribed_decreases_ledger_index :
    (serverSubscribed ⟨some 100, some "h99", some 50⟩
        ⟨false, false, some "abc", some 5, some 7⟩).1.ledger_current_index = some 6 ∧
    (6 : Int) < 100 :=
  ⟨rfl, by decide⟩

/-- C1 (amended): the standalone `ledgerClosed` handler is monotone — it
accepts a message only when `ledger_index` is at least the tracked index
(and never updates while the index is still unset), so its stored index
never decreases — but the ledger-close notice bundled inside a subscribe
acknowledgment is applied unconditionally (whenever its hash and index
are truthy), setting the tracked index to `ledger_index + 1` regardless
of the current value. -/
theorem ledger_index_monotone_standalone :
    (∀ (st : LedgerTracker) (m : LedgerClosedMsg) (i j : Int),
        st.ledger_current_index = some i →
        (handleLedgerClosed st m).1.ledger_current_index = some j →
        i ≤ j) ∧
    (∀ (st : LedgerTracker) (m : LedgerClosedMsg),
        st.ledger_current_index = none →
        handleLedgerClosed st m = (st, false)) ∧
    (∀ (st : LedgerTracker) (m : SubscribeAck) (i : Int),
        jsTruthyOptStr m.ledger_hash = true →
        m.ledger_index = some i → i ≠ 0 →
        (serverSubscribed st m).1.ledger_current_index = some (i + 1)) := by
  refine ⟨?_, ?_, ?_⟩
  · intro st m i j hi hj
    unfold handleLedgerClosed at hj
    split at hj
    · next hguard =>
        rw [hi] at hguard
        simp only [jsGeCurrent, decide_eq_true_eq] at hguard
        simp only [Option.some.injEq] at hj
        omega
    · simp only at hj
      rw [hi] at hj
      simp only [Option.some.injEq] at hj
      omega
  · intro st m h
    simp [handleLedgerClosed, jsGeCurrent, h]
  · intro st m i hh hi hne
    simp [serverSubscribed, hh, hi, jsTruthyOptInt, hne]

/-- C1 witness: the amended theorem applied at concrete inputs. -/
theorem ledger_index_monotone_standalone_witness :
    ((5 : Int) ≤ 8) ∧
    (handleLedgerClosed initialLedgerTracker (mkLedgerMsg 7) = (initialLedgerTracker, false)) ∧
    ((serverSubscribed initialLedgerTracker
        ⟨false, false, some "abc", some 4, some 0⟩).1.ledger_current_index = some 5) :=
  ⟨ledger_index_monotone_standalone.1 ⟨some 5, some "h", some 0⟩ (mkLedgerMsg 7) 5 8 rfl rfl,
   ledger_index_monotone_standalone.2.1 initialLedgerTracker (mkLedgerMsg 7) rfl,
   ledger_index_monotone_standalone.2.2 initialLedgerTracker
     ⟨false, false, some "abc", some 4, some 0⟩ 4 rfl rfl (by decide)⟩

/-! ### C2: the `[5,7,6,8]` scenario -/

/-- C2 counterexample: the claim starts from a freshly constructed
`Remote`, whose tracked index is still `undefined`; in JavaScript
`ledger_index >= undefined` is `false`, so all four messages are
rejected, no `ledger_closed` event fires, and the tracked index never
becomes 9. -/
theorem fresh_remote_rejects_all_ledgerClosed :
    runLedgerClosed initialLedgerTracker
        [mkLedgerMsg 5, mkLedgerMsg 7, mkLedgerMsg 6, mkLedgerMsg 8]
      = (initialLedgerTracker, [false, false, false, false]) ∧
    (runLedgerClosed initialLedgerTracker
        [mkLedgerMsg 5, mkLedgerMsg 7, mkLedgerMsg 6, mkLedgerMsg 8]).1.ledger_current_index
      ≠ some 9 :=
  ⟨by decide, by decide⟩

/-- C2 (amended): once the tracker has been initialized — here by a
subscribe acknowledgment whose bundled ledger-close notice carries
`ledger_index` 4, setting the tracked current index to 5 — feeding
well-formed `ledgerClosed` messages with indices 5, 7, 6, 8 accepts
exactly 5, 7 and 8 (each with a `ledger_closed` event), rejects 6 as
stale, and leaves the tracked current index at 9. -/
theorem ledger_sequence_5768_after_init :
    runLedgerClosed
        (serverSubscribed initialLedgerTracker ⟨false, false, some "init", some 4, some 0⟩).1
        [mkLedgerMsg 5, mkLedgerMsg 7, mkLedgerMsg 6, mkLedgerMsg 8]
      = (⟨some 9, some "h8", some 108⟩, [true, true, false, true]) := by
  decide

/-! ### C6: server selection with nothing connected -/

/-- C6: evaluation of the code at the failing input.  With a single
registered, disconnected server and no primary, the selection loop walks
past the end of the pool and throws a `TypeError` instead of returning no
server; consequently the `feeTx`/`feeTxUnit`/`reserve` selection step
propagates that `TypeError` and its own `No connected servers` guard is
never reached.  A disconnected primary falls through to the same crash. -/
theorem getServer_crashes_when_none_connected :
    getServerRun [⟨0, 0, 0, false⟩] none
      = Except.error ⟨"TypeError", "Cannot read property _connected of undefined"⟩ ∧
    feeQuerySelect [⟨0, 0, 0, false⟩] none
      = Except.error ⟨"TypeError", "Cannot read property _connected of undefined"⟩ ∧
    getServerRun [⟨0, 0, 0, false⟩] (some ⟨0, 0, 0, false⟩)
      = Except.error ⟨"TypeError", "Cannot read property _connected of undefined"⟩ :=
  ⟨rfl, rfl, rfl⟩

/-! ### C10: `disconnect()` calls the nonexistent `_set_state` -/

/-- C10: with at least one registered server, `disconnect()` instructs
every server to disconnect and then invokes `this._set_state`, a method
that exists nowhere on a `Remote` (the state setter is `_setState`), so
the call throws a `TypeError` and never itself moves the state to
`offline`; with zero servers it throws
`No servers available, not disconnecting`. -/
theorem disconnect_throws (st : DisconnectRemote) :
    (st.servers ≠ [] →
      disconnectRun st
        = (st.servers, Except.error ⟨"TypeError", "this._set_state is not a function"⟩)) ∧
    (st.servers = [] →
      disconnectRun st
        = ([], Except.error ⟨"Error", "No servers available, not disconnecting"⟩)) := by
  have hns : "_set_state" ∉ remoteCallableMethods := by decide
  constructor
  · intro h
    unfold disconnectRun
    rw [if_neg h, if_neg hns]
  · intro h
    unfold disconnectRun
    rw [if_pos h]

/-- C10 witness: `disconnect()` evaluated on a one-server and on a
zero-server `Remote`. -/
theorem disconnect_throws_witness :
    disconnectRun ⟨[1], "online"⟩
      = ([1], Except.error ⟨"TypeError", "this._set_state is not a function"⟩) ∧
    disconnectRun ⟨[], "online"⟩
      = ([], Except.error ⟨"Error", "No servers available, not disconnecting"⟩) :=
  ⟨(disconnect_throws ⟨[1], "online"⟩).1 (by decide),
   (disconnect_throws ⟨[], "online"⟩).2 rfl⟩

/-! ### C5: string command dispatch -/

/-- C5 counterexample: the claim asserts that `request('ping')` invokes
the ping request builder; in fact the derived name `request_ping` names
no method of the `Remote` (the builder is `requestPing`), so the call
throws `Command does not exist`. -/
theorem request_ping_does_not_resolve :
    requestStringDispatch "ping"
      = Except.error ⟨"Error", "Command does not exist: request_ping"⟩ := rfl

/-- No callable property of a `Remote` has a name beginning with the
characters `request_` (the request builders are camel-cased). -/
theorem no_request_underscore_method :
    ∀ m ∈ remoteCallableMethods, m.data.take 8 ≠ "request_".data := by
  decide

/-- C5 (amended): `request()` resolves a string command by prefixing
`request_` (leaving the command unchanged when it already starts with
`request_`) and fails with `Command does not exist` exactly when the
`Remote` has no method of the derived name; since no method name begins
with `request_`, the lookup fails for every string command, so every
string-named dispatch — `request('ping')` included — throws that error. -/
theorem request_string_dispatch_always_fails (cmd : String) :
    requestStringDispatch cmd
      = Except.error ⟨"Error", "Command does not exist: " ++ deriveRequestName cmd⟩ := by
  have hpre : (deriveRequestName cmd).data.take 8 = "request_".data := by
    unfold deriveRequestName
    split
    · next h =>
        exact of_decide_eq_true h
    · show (("request_" ++ cmd).data).take 8 = "request_".data
      have hdata : ("request_" ++ cmd).data = "request_".data ++ cmd.data := rfl
      rw [hdata]
      exact List.take_left "request_".data cmd.data
  have hnot : deriveRequestName cmd ∉ remoteCallableMethods := by
    intro hmem
    exact no_request_underscore_method _ hmem hpre
  unfold requestStringDispatch
  rw [if_neg hnot]

/-! ### C8: configuration type checks at construction -/

/-- C8 counterexample: a non-number `fee_cushion` does not fail
construction; the constructor silently replaces it with the default
`1.2`. -/
theorem remoteInit_accepts_wrong_typed_fee_cushion :
    (remoteInit { fee_cushion := JsValue.str "abc" }).isOk = true ∧
    (remoteInit { fee_cushion := JsValue.str "abc" }).toOption.map RemoteCfg.fee_cushion
      = some (JsValue.num (JsNum.val (6 / 5))) :=
  ⟨rfl, rfl⟩

/-- Each numeric field produced by the constructor's defaulting is a
number, and each boolean field a boolean, so the type checks that read
the defaulted fields can never fire. -/
theorem remoteDefaults_well_typed (opts : RemoteOpts) :
    typeofV (remoteDefaults opts).connection_offset = "number" ∧
    typeofV (remoteDefaults opts).submission_timeout = "number" ∧
    typeofV (remoteDefaults opts).max_fee = "number" ∧
    typeofV (remoteDefaults opts).fee_cushion = "number" ∧
    typeofV (remoteDefaults opts).local_signing = "boolean" ∧
    typeofV (remoteDefaults opts).local_fee = "boolean" ∧
    typeofV (remoteDefaults opts).local_sequence = "boolean" := by
  unfold remoteDefaults
  refine ⟨rfl, rfl, ?_, ?_, ?_, ?_, ?_⟩ <;> simp only <;> split_ifs <;>
    simp_all [typeofV]

/-- C8 (amended): only the `ping` and `storage` options are type-checked
on their raw values — a `ping` that is neither absent nor a number, or a
`storage` that is neither absent nor an object, throws a `TypeError` at
construction — while every other recognized option of the wrong type is
coerced or replaced by its default (`fee_cushion` by `1.2`), so
construction succeeds. -/
theorem remoteInit_typechecks_only_ping_storage (opts : RemoteOpts) :
    ((remoteInit opts).isOk = true ↔
      ((typeofV opts.ping = "undefined" ∨ typeofV opts.ping = "number") ∧
       (typeofV opts.storage = "undefined" ∨ typeofV opts.storage = "object"))) ∧
    (typeofV opts.fee_cushion ≠ "number" →
      ∀ cfg, remoteInit opts = Except.ok cfg →
        cfg.fee_cushion = JsValue.num (JsNum.val (6 / 5))) := by
  obtain ⟨h1, h2, h3, h4, h5, h6, h7⟩ := remoteDefaults_well_typed opts
  have hrw : remoteInit opts =
      (if ¬(typeofV opts.ping = "undefined" ∨ typeofV opts.ping = "number") then
        Except.error ⟨"TypeError", "Remote \"ping\" configuration is not a Number"⟩
      else if ¬(typeofV opts.storage = "undefined" ∨ typeofV opts.storage = "object") then
        Except.error ⟨"TypeError", "Remote \"storage\" configuration is not an Object"⟩
      else Except.ok (remoteDefaults opts)) := by
    unfold remoteInit
    rw [if_neg (by simp [h1]), if_neg (by simp [h2]), if_neg (by simp [h3]),
        if_neg (by simp [h4]), if_neg (by simp [h5]), if_neg (by simp [h6]),
        if_neg (by simp [h7])]
  constructor
  · rw [hrw]
    by_cases hp : typeofV opts.ping = "undefined" ∨ typeofV opts.ping = "number" <;>
      by_cases hs : typeofV opts.storage = "undefined" ∨ typeofV opts.storage = "object" <;>
        simp [hp, hs, Except.isOk, Except.toBool]
  · intro hfc cfg hok
    rw [hrw] at hok
    split at hok
    · exact absurd hok (by simp)
    · split at hok
      · exact absurd hok (by simp)
      · have hcfg : cfg = remoteDefaults opts := by
          injection hok.symm
        rw [hcfg]
        unfold remoteDefaults
        simp only
        rw [if_neg hfc]

/-- C8 witness: the amended theorem applied to a wrong-typed `ping`
(which throws) and to a wrong-typed `fee_cushion` with well-typed `ping`
and `storage` (which succeeds with the default). -/
theorem remoteInit_typechecks_only_ping_storage_witness :
    ((remoteInit { ping := JsValue.str "x" }).isOk = true ↔
      ((typeofV (JsValue.str "x") = "undefined" ∨ typeofV (JsValue.str "x") = "number") ∧
       (typeofV JsValue.undef = "undefined" ∨ typeofV JsValue.undef = "object"))) ∧
    ((remoteInit { fee_cushion := JsValue.boolean true }).toOption.map RemoteCfg.fee_cushion
      = some (JsValue.num (JsNum.val (6 / 5)))) := by
  constructor
  · exact (remoteInit_typechecks_only_ping_storage { ping := JsValue.str "x" }).1
  · have h := (remoteInit_typechecks_only_ping_storage
      { fee_cushion := JsValue.boolean true }).2 (by decide) (remoteDefaults
        { fee_cushion := JsValue.boolean true }) rfl
    have hini : remoteInit { fee_cushion := JsValue.boolean true }
        = Except.ok (remoteDefaults { fee_cushion := JsValue.boolean true }) := rfl
    rw [hini]
    simp [Except.toOption, h]

/-! ### C9: `getAccountSequence` with the ADVANCE/REWIND modifiers -/

/-- C9: after `setAccountSeq` initializes an account's entry to 10,
three `getAccountSequence(account, 'ADVANCE')` calls return 10, 11 and
12 and leave the stored sequence at 13; in general a call returns the
pre-mutation value and then adds the modifier (+1 for ADVANCE, -1 for
REWIND, 0 otherwise, case-insensitively) to the stored value; and a
lookup for an account with no cache entry returns no value and leaves
the state untouched. -/
theorem getAccountSequence_spec (st : AccountsState) (account : String) :
    (let st0 := setAccountSeq st account 10
     let r1 := getAccountSequence st0 account "ADVANCE"
     let r2 := getAccountSequence r1.2 account "ADVANCE"
     let r3 := getAccountSequence r2.2 account "ADVANCE"
     r1.1 = some 10 ∧ r2.1 = some 11 ∧ r3.1 = some 12 ∧
     (r3.2.accounts account).map AccountInfo.seq = some (some 13)) ∧
    (∀ advance info, st.accounts account = some info →
      (getAccountSequence st account advance).1 = info.seq ∧
      ((getAccountSequence st account advance).2.accounts account).map AccountInfo.seq
        = some (info.seq.map (· + advanceChange advance))) ∧
    (∀ advance, st.accounts account = none →
      getAccountSequence st account advance = (none, st)) ∧
    advanceChange "ADVANCE" = 1 ∧
    advanceChange "REWIND" = -1 ∧
    (∀ advance, jsToUpperCase advance ≠ "ADVANCE" → jsToUpperCase advance ≠ "REWIND" →
      advanceChange advance = 0) := by
  have hadv : advanceChange "ADVANCE" = 1 := by decide
  refine ⟨?_, ?_, ?_, hadv, by decide, ?_⟩
  · simp only [setAccountSeq, getAccountSequence, putAcct, UInt160_json_rewrite, hadv]
    norm_num
  · intro advance info hinfo
    simp [getAccountSequence, putAcct, UInt160_json_rewrite, hinfo]
  · intro advance hnone
    simp [getAccountSequence, UInt160_json_rewrite, hnone]
  · intro advance h1 h2
    simp [advanceChange, h1, h2]

/-- C9 witness: the three-call scenario run from the empty state, the
general modifier law applied to an entry holding 5 with REWIND, and the
missing-entry lookup. -/
theorem getAccountSequence_spec_witness :
    ((getAccountSequence (putAcct emptyAccounts "a" ⟨some 5, none⟩) "a" "REWIND").1 = some 5) ∧
    (((getAccountSequence (putAcct emptyAccounts "a" ⟨some 5, none⟩) "a"
        "REWIND").2.accounts "a").map AccountInfo.seq = some (some 4)) ∧
    (getAccountSequence emptyAccounts "a" "ADVANCE" = (none, emptyAccounts)) ∧
    (advanceChange "noop" = 0) :=
  ⟨((getAccountSequence_spec (putAcct emptyAccounts "a" ⟨some 5, none⟩) "a").2.1
      "REWIND" ⟨some 5, none⟩ rfl).1,
   ((getAccountSequence_spec (putAcct emptyAccounts "a" ⟨some 5, none⟩) "a").2.1
      "REWIND" ⟨some 5, none⟩ rfl).2,
   (getAccountSequence_spec emptyAccounts "a").2.2.1 "ADVANCE" rfl,
   (getAccountSequence_spec emptyAccounts "a").2.2.2.2.2 "noop" (by decide) (by decide)⟩

/-! ### C7: single-flight account sequence refresh -/

/-- C7: when no refresh is in flight for an account, the first
`accountSeqCache` call issues exactly one underlying `account_root`
lookup and a second concurrent call attaches to the same request instead
of issuing another; on success both attached callers receive the same
resolved sequence value, the entry's sequence is set from the fetched
node and the in-flight marker cleared; on failure the marker is cleared,
the error is signalled to both attached callers, and a later call issues
a fresh lookup (retry remains possible). -/
theorem accountSeqCache_single_flight (st : AccountsState) (account : String)
    (cb1 cb2 cb3 : Nat) (v : Int)
    (hfree : (st.accounts account).bind AccountInfo.caching_seq_request = none)
    (hwf : ∀ p ∈ st.attached, p.1 < st.nextRequestId) :
    let c1 := accountSeqCache st account cb1
    let c2 := accountSeqCache c1.1 account cb2
    c1.2 = c2.2 ∧
    c2.1.lookupsIssued = st.lookupsIssued + 1 ∧
    (resolveSeqSuccess c2.1 account c1.2 v).2
      = [SeqOutcome.success cb1 v, SeqOutcome.success cb2 v] ∧
    (resolveSeqSuccess c2.1 account c1.2 v).1.accounts account = some ⟨some v, none⟩ ∧
    (resolveSeqError c2.1 account c1.2).2 = [SeqOutcome.failure cb1, SeqOutcome.failure cb2] ∧
    ((resolveSeqError c2.1 account c1.2).1.accounts account).bind
      AccountInfo.caching_seq_request = none ∧
    (accountSeqCache (resolveSeqError c2.1 account c1.2).1 account cb3).1.lookupsIssued
      = st.lookupsIssued + 2 := by
  have hfilter : st.attached.filter (fun p => p.1 == st.nextRequestId) = [] := by
    rw [List.filter_eq_nil_iff]
    intro p hp
    simp [Nat.ne_of_lt (hwf p hp)]
  match hacct : st.accounts account with
  | none =>
      simp [accountSeqCache, resolveSeqSuccess, resolveSeqError, putAcct, emptyAccountInfo,
        hacct, List.filter_append, hfilter]
  | some info =>
      have hmarker : info.caching_seq_request = none := by
        rw [hacct] at hfree
        simpa using hfree
      simp [accountSeqCache, resolveSeqSuccess, resolveSeqError, putAcct, emptyAccountInfo,
        hacct, hmarker, List.filter_append, hfilter]

/-- C7 witness: the single-flight theorem run from the empty state. -/
theorem accountSeqCache_single_flight_witness :
    let c1 := accountSeqCache emptyAccounts "alice" 1
    let c2 := accountSeqCache c1.1 "alice" 2
    c1.2 = c2.2 ∧
    c2.1.lookupsIssued = emptyAccounts.lookupsIssued + 1 ∧
    (resolveSeqSuccess c2.1 "alice" c1.2 42).2
      = [SeqOutcome.success 1 42, SeqOutcome.success 2 42] ∧
    (resolveSeqSuccess c2.1 "alice" c1.2 42).1.accounts "alice" = some ⟨some 42, none⟩ ∧
    (resolveSeqError c2.1 "alice" c1.2).2 = [SeqOutcome.failure 1, SeqOutcome.failure 2] ∧
    ((resolveSeqError c2.1 "alice" c1.2).1.accounts "alice").bind
      AccountInfo.caching_seq_request = none ∧
    (accountSeqCache (resolveSeqError c2.1 "alice" c1.2).1 "alice" 3).1.lookupsIssued
      = emptyAccounts.lookupsIssued + 2 :=
  accountSeqCache_single_flight emptyAccounts "alice" 1 2 3 42 rfl
    (by intro p hp; simp [emptyAccounts] at hp)

/-! ### C3: transaction de-duplication keyed on validation -/

/-- Once a hash is in the `_received_tx` cache, every further delivery of
it is discarded with no effects, and the hash stays in the cache (a hit
only refreshes its recency). -/
theorem runTransactions_suppressed (st : TxState) (H : String) (msgs : List TxMsg)
    (hmem : H ∈ st.received_tx) (hall : ∀ m ∈ msgs, m.hash = H) :
    (runTransactions st msgs).2 = msgs.map (fun _ => []) ∧
    H ∈ (runTransactions st msgs).1.received_tx := by
  induction msgs generalizing st with
  | nil => exact ⟨rfl, hmem⟩
  | cons m rest ih =>
      have hm : m.hash = H := hall m (List.mem_cons_self m rest)
      have hstep : handleTransaction st m
          = ({ st with received_tx := H :: st.received_tx.erase H }, []) := by
        simp [handleTransaction, lruGet, hm, hmem]
      have hmem1 : H ∈ H :: st.received_tx.erase H := List.mem_cons_self _ _
      have hrest := ih { st with received_tx := H :: st.received_tx.erase H } hmem1
        (fun x hx => hall x (List.mem_cons_of_mem m hx))
      simp [runTransactions, hstep, hrest.1, hrest.2]

/-- C3: starting from a cache that does not hold hash `H` (capacity at
least 1, the `Remote` uses 100), a run of deliveries of `H` fans out
exactly the deliveries up to and including the first one with
`validated = true`: every earlier (unvalidated) delivery fans out in
full, the first validated delivery fans out and inserts `H` into the
cache, and every delivery after that insertion is discarded with no
effects; `H` ends up in the cache exactly when some delivery was
validated. -/
theorem transaction_dedup_on_validation (st : TxState) (H : String) (msgs : List TxMsg)
    (hnot : H ∉ st.received_tx) (hmax : 1 ≤ st.received_tx_max)
    (hall : ∀ m ∈ msgs, m.hash = H) :
    (runTransactions st msgs).2.map (fun out => !out.isEmpty)
      = expectedFanout (msgs.map TxMsg.validated) ∧
    (H ∈ (runTransactions st msgs).1.received_tx ↔ true ∈ msgs.map TxMsg.validated) := by
  induction msgs generalizing st with
  | nil =>
      simp [runTransactions, expectedFanout, hnot]
  | cons m rest ih =>
      have hm : m.hash = H := hall m (List.mem_cons_self m rest)
      have hrest : ∀ x ∈ rest, x.hash = H := fun x hx => hall x (List.mem_cons_of_mem m hx)
      by_cases hv : m.validated
      · -- the first validated delivery: fans out, inserts H, suppresses the rest
        have hkey : H ∈ lruSet st.received_tx_max st.received_tx H := by
          obtain ⟨k, hk⟩ := Nat.exists_eq_add_of_le hmax
          rw [lruSet, hk, Nat.add_comm 1 k, List.take_succ_cons]
          exact List.mem_cons_self _ _
        have hstep : handleTransaction st m
            = ({ st with received_tx := lruSet st.received_tx_max st.received_tx H },
               (match m.meta with
                | some aff =>
                    (aff.1.filter (fun a => st.accounts.contains a)).map TxEvent.notifyAccount ++
                    (aff.2.filter (fun b => st.books.contains b)).map TxEvent.notifyBook
                | none =>
                    ([m.account, m.destination].filter
                      (fun a => st.accounts.contains a)).map TxEvent.notifyAccount) ++
               [TxEvent.transaction, TxEvent.transaction_all]) := by
          simp [handleTransaction, lruGet, hm, hnot, hv]
        have hsup := runTransactions_suppressed
          { st with received_tx := lruSet st.received_tx_max st.received_tx H } H rest hkey hrest
        constructor
        · simp [runTransactions, hstep, hsup.1, expectedFanout, hv, List.map_map,
            Function.comp]
        · simp [runTransactions, hstep, hsup.2, hv]
      · -- an unvalidated delivery before any validated one: fans out, cache unchanged
        have hstep : handleTransaction st m
            = (st,
               (match m.meta with
                | some aff =>
                    (aff.1.filter (fun a => st.accounts.contains a)).map TxEvent.notifyAccount ++
                    (aff.2.filter (fun b => st.books.contains b)).map TxEvent.notifyBook
                | none =>
                    ([m.account, m.destination].filter
                      (fun a => st.accounts.contains a)).map TxEvent.notifyAccount) ++
               [TxEvent.transaction, TxEvent.transaction_all]) := by
          simp [handleTransaction, lruGet, hm, hnot, hv]
        have hih := ih st hnot hmax hrest
        constructor
        · simp [runTransactions, hstep, expectedFanout, hv, hih.1]
        · simp only [runTransactions, hstep]
          simp [hv]
          simpa using hih.2

/-- C3 witness: two unvalidated deliveries of `h` fan out, a validated
one fans out and inserts, a fourth delivery is suppressed; `h` is left in
the cache. -/
theorem transaction_dedup_on_validation_witness :
    (runTransactions ⟨100, [], ["s"], []⟩
        [⟨"h", false, "s", "d", none⟩, ⟨"h", false, "s", "d", none⟩,
         ⟨"h", true, "s", "d", none⟩, ⟨"h", false, "s", "d", none⟩]).2.map
        (fun out => !out.isEmpty)
      = expectedFanout [false, false, true, false] ∧
    ("h" ∈ (runTransactions ⟨100, [], ["s"], []⟩
        [⟨"h", false, "s", "d", none⟩, ⟨"h", false, "s", "d", none⟩,
         ⟨"h", true, "s", "d", none⟩, ⟨"h", false, "s", "d", none⟩]).1.received_tx
      ↔ true ∈ [false, false, true, false]) :=
  transaction_dedup_on_validation ⟨100, [], ["s"], []⟩ "h"
    [⟨"h", false, "s", "d", none⟩, ⟨"h", false, "s", "d", none⟩,
     ⟨"h", true, "s", "d", none⟩, ⟨"h", false, "s", "d", none⟩]
    (by decide) (by decide) (by decide)

/-! ### C4: the online/offline connection state machine -/

/-- A `connect` event preserves the machine invariant, and emits exactly
one `connect`/`connected` pair exactly when the count goes 0 to 1. -/
theorem connStep_conn_spec (st : ConnState) (sid : Nat)
    (hinv : ConnInv st) (hns : sid ∉ st.connectedIds) :
    ConnInv (connStep st (SrvEvent.conn sid)).1 ∧
    (connStep st (SrvEvent.conn sid)).2.count "connect"
      = (if st.connection_count = 0 then 1 else 0) ∧
    (connStep st (SrvEvent.conn sid)).2.count "connected"
      = (if st.connection_count = 0 then 1 else 0) ∧
    (connStep st (SrvEvent.conn sid)).2.count "disconnect" = 0 ∧
    (connStep st (SrvEvent.conn sid)).2.count "disconnected" = 0 := by
  obtain ⟨hnd, hc, ho⟩ := hinv
  by_cases h0 : st.connection_count = 0
  · have hoff : st.online = false := by
      rw [h0] at ho
      simpa using ho
    have hids : st.connectedIds = [] := by
      have hlen : st.connectedIds.length = 0 := by omega
      exact List.length_eq_zero.mp hlen
    have hinv1 : ConnInv (connStep st (SrvEvent.conn sid)).1 := by
      refine ⟨?_, ?_, ?_⟩ <;>
        simp [connStep, setState, h0, hoff, ConnInv, hnd, hns, hc, hids]
    refine ⟨hinv1, ?_, ?_, ?_, ?_⟩ <;>
      simp only [connStep, setState, h0, hoff, if_pos, if_neg] <;>
      norm_num <;> split <;> rfl
  · have hon : st.online = true := by
      have hlen : 0 < st.connectedIds.length := by omega
      exact ho.mpr (by omega)
    have hcond : ¬(st.connection_count + 1 = 1) := by omega
    have hinv1 : ConnInv (connStep st (SrvEvent.conn sid)).1 := by
      refine ⟨?_, ?_, ?_⟩ <;>
        simp [connStep, setState, hcond, ConnInv, hnd, hns, hc, hon] <;> omega
    refine ⟨hinv1, ?_, ?_, ?_, ?_⟩ <;>
      simp only [connStep, setState, if_neg hcond, h0, if_false, List.nil_append] <;>
      norm_num <;> split <;> rfl

/-- A `disconnect` event preserves the machine invariant, and emits
exactly one `disconnect`/`disconnected` pair exactly when the count goes
1 to 0. -/
theorem connStep_disc_spec (st : ConnState) (sid : Nat)
    (hinv : ConnInv st) (hmem : sid ∈ st.connectedIds) :
    ConnInv (connStep st (SrvEvent.disc sid)).1 ∧
    (connStep st (SrvEvent.disc sid)).2.count "disconnect"
      = (if st.connection_count = 1 then 1 else 0) ∧
    (connStep st (SrvEvent.disc sid)).2.count "disconnected"
      = (if st.connection_count = 1 then 1 else 0) ∧
    (connStep st (SrvEvent.disc sid)).2.count "connect" = 0 ∧
    (connStep st (SrvEvent.disc sid)).2.count "connected" = 0 := by
  obtain ⟨hnd, hc, ho⟩ := hinv
  have hpos : 0 < st.connectedIds.length := List.length_pos_of_mem hmem
  have herase : (st.connectedIds.erase sid).length = st.connectedIds.length - 1 :=
    List.length_erase_of_mem hmem
  have hon : st.online = true := ho.mpr (by omega)
  by_cases h1 : st.connection_count = 1
  · have hcond : st.connection_count - 1 = 0 := by omega
    have hinv1 : ConnInv (connStep st (SrvEvent.disc sid)).1 := by
      refine ⟨?_, ?_, ?_⟩ <;>
        simp [connStep, setState, hcond, hon, ConnInv, hnd.erase, herase] <;> omega
    refine ⟨hinv1, ?_, ?_, ?_, ?_⟩ <;>
      simp only [connStep, setState, if_pos hcond, hon, h1, if_true] <;>
      norm_num <;> rfl
  · have hcond : ¬(st.connection_count - 1 = 0) := by omega
    have hinv1 : ConnInv (connStep st (SrvEvent.disc sid)).1 := by
      refine ⟨?_, ?_, ?_⟩ <;>
        simp [connStep, setState, hcond, ConnInv, hnd.erase, herase, hon] <;> omega
    refine ⟨hinv1, ?_, ?_, ?_, ?_⟩ <;>
      simp only [connStep, setState, if_neg hcond] <;>
      simp [h1]

/-- A `connect` event leaves the connected-id set as `sid` consed on, and
keeps the pool size. -/
theorem connStep_conn_ids (st : ConnState) (sid : Nat) :
    (connStep st (SrvEvent.conn sid)).1.connectedIds = sid :: st.connectedIds := by
  simp only [connStep, setState]
  split_ifs <;> rfl

/-- A `disconnect` event leaves the connected-id set with `sid` erased. -/
theorem connStep_disc_ids (st : ConnState) (sid : Nat) :
    (connStep st (SrvEvent.disc sid)).1.connectedIds = st.connectedIds.erase sid := by
  simp only [connStep, setState]
  split_ifs <;> rfl

/-- The machine invariant is preserved along any well-formed run. -/
theorem connRun_inv (es : List SrvEvent) : ∀ (st : ConnState), ConnInv st →
    validEvents st.connectedIds es = true → ConnInv (connRun st es).1 := by
  induction es with
  | nil => intro st hinv _; exact hinv
  | cons e rest ih =>
      intro st hinv hval
      cases e with
      | conn sid =>
          rw [validEvents, Bool.and_eq_true] at hval
          have hns : sid ∉ st.connectedIds := by
            simpa using hval.1
          have hstep := (connStep_conn_spec st sid hinv hns).1
          have hrest : validEvents (connStep st (SrvEvent.conn sid)).1.connectedIds rest
              = true := by
            rw [connStep_conn_ids]
            exact hval.2
          simpa [connRun] using ih _ hstep hrest
      | disc sid =>
          rw [validEvents, Bool.and_eq_true] at hval
          have hmem : sid ∈ st.connectedIds := by
            simpa using hval.1
          have hstep := (connStep_disc_spec st sid hinv hmem).1
          have hrest : validEvents (connStep st (SrvEvent.disc sid)).1.connectedIds rest
              = true := by
            rw [connStep_disc_ids]
            exact hval.2
          simpa [connRun] using ih _ hstep hrest

/-- C4: for every well-formed sequence of per-server connect/disconnect
events, the invariant `online ⟺ connection count > 0` (together with the
count equalling the number of connected servers) holds after each event;
a connect event emits exactly one `connect`/`connected` pair precisely on
the 0→1 transition of the count, a disconnect event emits exactly one
`disconnect`/`disconnected` pair precisely on the 1→0 transition, and no
pair is emitted when the state is re-entered unchanged. -/
theorem connection_state_machine :
    (∀ (st : ConnState) (sid : Nat), ConnInv st → sid ∉ st.connectedIds →
      ConnInv (connStep st (SrvEvent.conn sid)).1 ∧
      (connStep st (SrvEvent.conn sid)).2.count "connect"
        = (if st.connection_count = 0 then 1 else 0) ∧
      (connStep st (SrvEvent.conn sid)).2.count "connected"
        = (if st.connection_count = 0 then 1 else 0) ∧
      (connStep st (SrvEvent.conn sid)).2.count "disconnect" = 0 ∧
      (connStep st (SrvEvent.conn sid)).2.count "disconnected" = 0) ∧
    (∀ (st : ConnState) (sid : Nat), ConnInv st → sid ∈ st.connectedIds →
      ConnInv (connStep st (SrvEvent.disc sid)).1 ∧
      (connStep st (SrvEvent.disc sid)).2.count "disconnect"
        = (if st.connection_count = 1 then 1 else 0) ∧
      (connStep st (SrvEvent.disc sid)).2.count "disconnected"
        = (if st.connection_count = 1 then 1 else 0) ∧
      (connStep st (SrvEvent.disc sid)).2.count "connect" = 0 ∧
      (connStep st (SrvEvent.disc sid)).2.count "connected" = 0) ∧
    (∀ (st : ConnState) (es : List SrvEvent), ConnInv st →
      validEvents st.connectedIds es = true → ConnInv (connRun st es).1) :=
  ⟨connStep_conn_spec, connStep_disc_spec, fun st es => connRun_inv es st⟩

/-- C4 witness: a connect from the initial two-server state, a
disconnect from a one-connection state, and a four-event well-formed run. -/
theorem connection_state_machine_witness :
    ConnInv (connStep (connInitial 2) (SrvEvent.conn 0)).1 ∧
    ConnInv (connStep ⟨[0], 1, true, 2⟩ (SrvEvent.disc 0)).1 ∧
    ConnInv (connRun (connInitial 2)
      [SrvEvent.conn 0, SrvEvent.conn 1, SrvEvent.disc 0, SrvEvent.disc 1]).1 :=
  ⟨(connection_state_machine.1 (connInitial 2) 0 (by simp [ConnInv, connInitial])
      (by simp [connInitial])).1,
   (connection_state_machine.2.1 ⟨[0], 1, true, 2⟩ 0 (by simp [ConnInv])
      (by simp)).1,
   connection_state_machine.2.2 (connInitial 2)
     [SrvEvent.conn 0, SrvEvent.conn 1, SrvEvent.disc 0, SrvEvent.disc 1]
     (by simp [ConnInv, connInitial]) (by decide)⟩

end PaysharesRemote
